import Mathlib

/-!
Verification of the dev-browser-studio core: a shallow embedding of the
frame sampler, budget controller, key-frame extraction, page/recording
registry, action executor, history compressor and perception loop, with
theorems checking the specification's claims against the code.

Conventions of the embedding:
- JavaScript numbers that are used as counters, indices or millisecond
  times are modelled as `Nat`; pixel coordinates as `Int`; dollar costs
  and pixel-difference ratios as `ℚ`.
- Optional / possibly-`undefined` values are `Option`; JS string
  interpolation of a possibly-undefined value is `jsUndef`.
- External collaborators (sharp resampling, Playwright page operations,
  the vision model, wall-clock time) are oracle inputs: functions or
  per-cycle event records supplied to the embedded code.
-/

namespace DevBrowserStudio

/-- Raw image bytes (a JPEG buffer or a raw grayscale thumbnail). -/
abbrev ByteSeq := List Nat

/-- Token usage reported by the model for one request. -/
structure TokenUsage where
  input : Nat
  output : Nat
deriving Repr, DecidableEq

/-- JS template interpolation of a possibly-undefined string value. -/
def jsUndef (o : Option String) : String := o.getD "undefined"

/-- JS template interpolation of a possibly-undefined number value. -/
def jsUndefInt (o : Option Int) : String :=
  match o with
  | some n => toString n
  | none => "undefined"

/-! ## Frame Sampler (src/frame-sampler.ts)

`makeThumbnail` (sharp resampling) is external: `hasChanged` is embedded
as a function of the already-resampled grayscale thumbnail bytes.
Byte-identical input frames yield identical thumbnails because the
resampler is a pure function of the frame bytes. -/

structure FrameSampler where
  lastThumbnail : Option ByteSeq
  diffThreshold : ℚ
  thumbnailSize : Nat
  consecutiveSkips : Nat
  forceNextCapture : Bool
deriving Repr, DecidableEq

/-- Models `new FrameSampler(config)`: unset config fields take the defaults. -/
def FrameSampler.init (diffThreshold : Option ℚ) (thumbnailSize : Option Nat) : FrameSampler :=
  { lastThumbnail := none
    diffThreshold := diffThreshold.getD (5 / 100)
    thumbnailSize := thumbnailSize.getD 16
    consecutiveSkips := 0
    forceNextCapture := false }

/-- Models `Math.abs(a[i] - b[i])` on grayscale bytes. -/
def pixelDelta (a b : Nat) : Nat := max a b - min a b

/-- The `diffPixels` loop of `computeDiff`: count positions (up to the
shorter length) whose delta exceeds the per-pixel threshold 25. -/
def countDiffPixels : ByteSeq → ByteSeq → Nat
  | x :: xs, y :: ys => (if 25 < pixelDelta x y then 1 else 0) + countDiffPixels xs ys
  | _, _ => 0

/-- Models `computeDiff(a, b)`: ratio of differing pixels; 1 if empty. -/
def FrameSampler.computeDiff (a b : ByteSeq) : ℚ :=
  let pixelCount := min a.length b.length
  if pixelCount = 0 then 1
  else (countDiffPixels a b : ℚ) / (pixelCount : ℚ)

/-- Models `hasChanged(frameBuffer)`, as a function of the resampled thumbnail;
returns the boolean and the updated sampler state. -/
def FrameSampler.hasChanged (s : FrameSampler) (thumbnail : ByteSeq) : Bool × FrameSampler :=
  if s.forceNextCapture then
    (true, { s with forceNextCapture := false, lastThumbnail := some thumbnail,
                    consecutiveSkips := 0 })
  else
    match s.lastThumbnail with
    | none => (true, { s with lastThumbnail := some thumbnail, consecutiveSkips := 0 })
    | some last =>
      let diff := FrameSampler.computeDiff last thumbnail
      if s.diffThreshold < diff then
        (true, { s with lastThumbnail := some thumbnail, consecutiveSkips := 0 })
      else
        let skips := s.consecutiveSkips + 1
        if 5 ≤ skips then
          (true, { s with lastThumbnail := some thumbnail, consecutiveSkips := 0 })
        else
          (false, { s with consecutiveSkips := skips })

/-- Models `forceCapture()`. -/
def FrameSampler.forceCapture (s : FrameSampler) : FrameSampler :=
  { s with forceNextCapture := true }

/-- A sequence of `hasChanged` calls, returning the booleans in order. -/
def FrameSampler.hasChangedSeq (s : FrameSampler) : List ByteSeq → List Bool
  | [] => []
  | f :: fs =>
    let r := s.hasChanged f
    r.1 :: r.2.hasChangedSeq fs

/-- A sequence of `hasChanged` calls, returning the final sampler state. -/
def FrameSampler.runSeq (s : FrameSampler) : List ByteSeq → FrameSampler
  | [] => s
  | f :: fs => ((s.hasChanged f).2).runSeq fs

/-! ## Budget Controller (src/budget.ts) -/

structure BudgetLimits where
  maxCycles : Nat
  maxTokens : Nat
  maxCostUSD : ℚ
  maxDurationMs : Nat
deriving Repr, DecidableEq

/-- Models `DEFAULT_BUDGET`. -/
def defaultBudgetLimits : BudgetLimits :=
  { maxCycles := 100, maxTokens := 500000, maxCostUSD := 5, maxDurationMs := 600000 }

structure BudgetController where
  cycles : Nat
  inputTokens : Nat
  outputTokens : Nat
  startTime : Nat
  limits : BudgetLimits
deriving Repr, DecidableEq

/-- Models `new BudgetController(config)` at wall-clock instant `startTime`;
unset config fields take the defaults (here the limits record is already
resolved). -/
def BudgetController.init (limits : BudgetLimits) (startTime : Nat) : BudgetController :=
  { cycles := 0, inputTokens := 0, outputTokens := 0, startTime, limits }

/-- Models `estimateCost()`: accumulated tokens at $3/M input and $15/M output. -/
def BudgetController.estimateCost (b : BudgetController) : ℚ :=
  (b.inputTokens : ℚ) / 1000000 * 3 + (b.outputTokens : ℚ) / 1000000 * 15

/-- Models `cost.toFixed(2)` for the non-negative costs that occur here. -/
def fixed2 (q : ℚ) : String :=
  let n := (round (q * 100) : ℤ).toNat
  toString (n / 100) ++ "." ++ (if n % 100 < 10 then "0" else "") ++ toString (n % 100)

/-- Models `Math.round(ms / 1000)` on a non-negative millisecond count. -/
def jsRoundMsToSec (n : Nat) : Nat := (n + 500) / 1000

/-- The `{ allowed, reason? }` shape returned by `canProceed`. -/
structure BudgetDecision where
  allowed : Bool
  reason : Option String
deriving Repr, DecidableEq

/-- Models `canProceed()` at wall-clock instant `now`. -/
def BudgetController.canProceed (b : BudgetController) (now : Nat) : BudgetDecision :=
  if b.limits.maxCycles ≤ b.cycles then
    { allowed := false
      reason := some ("Max cycles reached (" ++ toString b.limits.maxCycles ++ ")") }
  else
    let totalTokens := b.inputTokens + b.outputTokens
    if b.limits.maxTokens ≤ totalTokens then
      { allowed := false
        reason := some ("Max tokens reached (" ++ toString totalTokens ++ "/" ++
          toString b.limits.maxTokens ++ ")") }
    else
      let cost := b.estimateCost
      if b.limits.maxCostUSD ≤ cost then
        { allowed := false
          reason := some ("Max cost reached ($" ++ fixed2 cost ++ "/$" ++
            fixed2 b.limits.maxCostUSD ++ ")") }
      else
        let elapsed := now - b.startTime
        if b.limits.maxDurationMs ≤ elapsed then
          { allowed := false
            reason := some ("Max duration reached (" ++ toString (jsRoundMsToSec elapsed) ++
              "s/" ++ toString (jsRoundMsToSec b.limits.maxDurationMs) ++ "s)") }
        else
          { allowed := true, reason := none }

/-- Models `onCycleComplete(tokens)`. -/
def BudgetController.onCycleComplete (b : BudgetController) (tokens : TokenUsage) : BudgetController :=
  { b with cycles := b.cycles + 1
           inputTokens := b.inputTokens + tokens.input
           outputTokens := b.outputTokens + tokens.output }

/-- A sequence of `onCycleComplete` calls. -/
def BudgetController.runCycles (b : BudgetController) (l : List TokenUsage) : BudgetController :=
  l.foldl BudgetController.onCycleComplete b

/-! ## Key-frame extraction (src/index.ts, `extractKeyFrames`) -/

/-- Models `basePath.replace(/\.webm$/, repl)`: substitute a trailing `.webm`,
leaving the path unchanged when the pattern does not match.  Stated on
the character lists underlying the strings so that it evaluates by
kernel reduction (`String.endsWith` does not). -/
def replaceWebmEnd (basePath repl : String) : String :=
  if ".webm".data.isSuffixOf basePath.data then
    String.mk (basePath.data.take (basePath.data.length - 5)) ++ repl
  else basePath

/-- The key-frame file path for 1-based key-frame number `k`. -/
def keyFramePath (basePath : String) (k : Nat) : String :=
  replaceWebmEnd basePath ("-keyframe-" ++ toString k ++ ".jpg")

/-- The `for (let i = 0; i < count && i * step < frameBuffer.length; i++)`
loop: the `(path, bytes)` writes it performs, in order.  The source's
`if (!frameData) continue` guard is unreachable because the loop condition
keeps `i * step` in bounds. -/
def extractKeyFramesLoop (frameBuffer : List ByteSeq) (count step : Nat) (basePath : String)
    (i : Nat) : List (String × ByteSeq) :=
  if _h : i < count ∧ i * step < frameBuffer.length then
    match frameBuffer.get? (i * step) with
    | some frameData =>
      (keyFramePath basePath (i + 1), frameData) ::
        extractKeyFramesLoop frameBuffer count step basePath (i + 1)
    | none => extractKeyFramesLoop frameBuffer count step basePath (i + 1)
  else []
termination_by count - i
decreasing_by all_goals omega

/-- Models `extractKeyFrames(frameBuffer, count, basePath)`: the files written
(path and frame bytes); the returned `keyFramePaths` are the first
components. -/
def extractKeyFrames (frameBuffer : List ByteSeq) (count : Nat) (basePath : String) :
    List (String × ByteSeq) :=
  if frameBuffer.isEmpty then []
  else
    let step := max 1 (frameBuffer.length / count)
    extractKeyFramesLoop frameBuffer count step basePath 0

/-! ## Page registry and recording lifecycle (src/index.ts)

One page entry: its console-log vector and its optional recording state.
Console log entries are opaque to every claim, so they are modelled by
their text.  CDP sessions, wall-clock instants and the external video
encoder are oracle inputs. -/

abbrev ConsoleLogEntry := String

structure RecordingOptions where
  maxWidth : Nat
  maxHeight : Nat
  quality : Nat
  everyNthFrame : Nat
  captureConsoleLogs : Bool
  extractKeyFrames : Bool
  keyFrameCount : Nat
deriving Repr, DecidableEq

/-- The resolved defaults for a start request with no options. -/
def defaultRecordingOptions : RecordingOptions :=
  { maxWidth := 1280, maxHeight := 720, quality := 80, everyNthFrame := 1
    captureConsoleLogs := true, extractKeyFrames := true, keyFrameCount := 5 }

structure RecordingState where
  isRecording : Bool
  startedAt : Nat
  frameCount : Nat
  frameBuffer : List ByteSeq
  options : RecordingOptions
  outputPath : String
  recordingStartIndex : Nat
deriving Repr, DecidableEq

structure PageEntry where
  consoleLogs : List ConsoleLogEntry
  recording : Option RecordingState
deriving Repr, DecidableEq

/-- A page entry as created by `POST /pages`. -/
def PageEntry.init : PageEntry := { consoleLogs := [], recording := none }

/-- Whether `entry.recording?.isRecording` is truthy. -/
def PageEntry.recActive (e : PageEntry) : Bool :=
  match e.recording with
  | some r => r.isRecording
  | none => false

/-- A console-capture event handler appending one normalized entry. -/
def PageEntry.pushConsoleLog (e : PageEntry) (log : ConsoleLogEntry) : PageEntry :=
  { e with consoleLogs := e.consoleLogs ++ [log] }

/-- Models `DELETE /pages/:name/console` on an existing page: clears the vector
and reports how many entries were cleared. -/
def PageEntry.clearConsole (e : PageEntry) : PageEntry × Nat :=
  ({ e with consoleLogs := [] }, e.consoleLogs.length)

structure StartRecordingReply where
  status : Nat
  success : Bool
  error : Option String
deriving Repr, DecidableEq

/-- Models `POST /pages/:name/recording/start` on an existing page.  `cdpOk`
models whether the CDP session setup and `Page.startScreencast` calls
succeed; on failure the handler clears the recording state and replies
500 with the thrown message `errMsg`. -/
def PageEntry.startRecording (e : PageEntry) (opts : RecordingOptions) (now : Nat)
    (outputPath : String) (cdpOk : Bool) (errMsg : String) :
    StartRecordingReply × PageEntry :=
  if e.recActive then
    ({ status := 409, success := false, error := some "Recording already in progress" }, e)
  else if cdpOk then
    ({ status := 200, success := true, error := none },
     { e with recording := some (
        { isRecording := true, startedAt := now, frameCount := 0, frameBuffer := []
          options := opts, outputPath, recordingStartIndex := e.consoleLogs.length }) })
  else
    ({ status := 500, success := false, error := some errMsg },
     { e with recording := none })

/-- The `Page.screencastFrame` handler: if no recording is active the
frame is dropped; otherwise the frame is acked (`ackOk` models whether
the ack succeeds — on ack failure the handler returns early) and the
decoded bytes are appended. -/
def PageEntry.screencastFrame (e : PageEntry) (data : ByteSeq) (ackOk : Bool) : PageEntry :=
  match e.recording with
  | some r =>
    if r.isRecording then
      if ackOk then
        { e with recording := some (
            { r with frameBuffer := r.frameBuffer ++ [data], frameCount := r.frameCount + 1 }) }
      else e
    else e
  | none => e

structure StopRecordingReply where
  status : Nat
  success : Bool
  videoPath : Option String
  durationMs : Option Nat
  frameCount : Option Nat
  consoleLogs : Option (List ConsoleLogEntry)
  keyFramePaths : Option (List String)
  summaryPath : Option String
  error : Option String
deriving Repr, DecidableEq

/-- Models `POST /pages/:name/recording/stop` on an existing page, at wall-clock
instant `now`.  `encoder` models the external `encodeFramesToVideo`
collaborator (its returned video path). -/
def PageEntry.stopRecording (e : PageEntry) (now : Nat)
    (encoder : List ByteSeq → String → String) : StopRecordingReply × PageEntry :=
  match e.recording with
  | some r =>
    if r.isRecording then
      let durationMs := now - r.startedAt
      let consoleLogs :=
        if r.options.captureConsoleLogs then e.consoleLogs.drop r.recordingStartIndex else []
      let videoPath :=
        if r.frameBuffer.length > 0 then encoder r.frameBuffer r.outputPath else r.outputPath
      let keyFrames :=
        if r.options.extractKeyFrames ∧ r.frameBuffer.length > 0 then
          extractKeyFrames r.frameBuffer r.options.keyFrameCount r.outputPath
        else []
      ({ status := 200, success := true, videoPath := some videoPath
         durationMs := some durationMs, frameCount := some r.frameCount
         consoleLogs := some consoleLogs
         keyFramePaths := some (keyFrames.map Prod.fst)
         summaryPath := some (replaceWebmEnd r.outputPath "-summary.json")
         error := none },
       { e with recording := none })
    else
      ({ status := 409, success := false, videoPath := none, durationMs := none
         frameCount := none, consoleLogs := none, keyFramePaths := none
         summaryPath := none, error := some "No recording in progress" }, e)
  | none =>
    ({ status := 409, success := false, videoPath := none, durationMs := none
       frameCount := none, consoleLogs := none, keyFramePaths := none
       summaryPath := none, error := some "No recording in progress" }, e)

/-- The operations that can touch one page entry's console logs and
recording state between a recording's start and stop. -/
inductive RegOp where
  | pushLog (entry : ConsoleLogEntry)
  | clearLogs
  | startRec (opts : RecordingOptions) (now : Nat) (outputPath : String)
      (cdpOk : Bool) (errMsg : String)
  | frame (data : ByteSeq) (ackOk : Bool)
  | stopRec (now : Nat)
deriving Repr, DecidableEq

/-- The state change of one operation (replies discarded). -/
def applyRegOp (encoder : List ByteSeq → String → String) (e : PageEntry) : RegOp → PageEntry
  | .pushLog l => e.pushConsoleLog l
  | .clearLogs => (e.clearConsole).1
  | .startRec opts now path cdpOk errMsg => (e.startRecording opts now path cdpOk errMsg).2
  | .frame d ackOk => e.screencastFrame d ackOk
  | .stopRec now => (e.stopRecording now encoder).2

/-- Run a sequence of operations from a state. -/
def applyRegOps (encoder : List ByteSeq → String → String) (e : PageEntry)
    (ops : List RegOp) : PageEntry :=
  ops.foldl (applyRegOp encoder) e

/-- Whether an operation is safe in a state: the console-clear endpoint
is only safe while no recording is active. -/
def regOpClearGuard (e : PageEntry) : RegOp → Bool
  | .clearLogs => !e.recActive
  | _ => true

/-- The executions in which the console-clear endpoint is never invoked
while a recording is active. -/
def noClearWhileRecording (encoder : List ByteSeq → String → String) :
    PageEntry → List RegOp → Bool
  | _, [] => true
  | e, op :: ops =>
    regOpClearGuard e op &&
    noClearWhileRecording encoder (applyRegOp encoder e op) ops

/-! ## Agent actions and the Action Executor (src/tools.ts)

The action input is the record of fields the executor, the loop and the
history compressor read.  Absent fields are `none` (JS `undefined`);
`extracted_data` is opaque and modelled by its serialized text. -/

structure ActionInput where
  ref : Option String
  x : Option Int
  y : Option Int
  button : Option String
  text : Option String
  clear_first : Option Bool
  direction : Option String
  amount : Option Int
  url : Option String
  key : Option String
  ms : Option Nat
  value : Option String
  success : Option Bool
  summary : Option String
  reason : Option String
  extracted_data : Option String
deriving Repr, DecidableEq

/-- An action input with every field absent. -/
def emptyInput : ActionInput :=
  ⟨none, none, none, none, none, none, none, none, none, none, none, none, none, none,
   none, none⟩

structure AgentAction where
  name : String
  input : ActionInput
deriving Repr, DecidableEq

structure ActionResult where
  success : Bool
  error : Option String
deriving Repr, DecidableEq

/-- JS truthiness of an optional string (`undefined` and `""` are falsy). -/
def jsTruthyStr (o : Option String) : Bool :=
  match o with
  | some s => !(s = "")
  | none => false

/-- JS truthiness of an optional boolean. -/
def jsTruthyBool (o : Option Bool) : Bool := o = some true

/-- The concrete Playwright page operations the executor can perform.
Arguments that the source passes through an unchecked cast (and so may be
`undefined`) are carried as `Option`. -/
inductive PageOp where
  | elemClick (ref : String) (button : String)
  | mouseClick (x y : Int) (button : String)
  | elemFill (ref : String) (text : Option String)
  | elemClickPlain (ref : String)
  | keyboardType (text : Option String)
  | keyboardPress (key : Option String)
  | mouseWheel (dx dy : Int)
  | gotoURL (url : Option String)
  | sleep (ms : Nat)
  | elemHover (ref : String)
  | mouseMove (x y : Int)
  | selectByValue (ref : Option String) (value : Option String)
  | selectByLabel (ref : Option String) (value : Option String)
deriving Repr, DecidableEq

/-- The external world the executor runs against: the ref resolver (which
may throw, or resolve to null) and the page operations (each may throw
with a message).  `.error m` models a thrown exception. -/
structure ExecEnv where
  resolveRef : Option String → Except String (Option Unit)
  runOp : PageOp → Except String Unit

/-- Models `executeClick(input)`. -/
def executeClick (env : ExecEnv) (input : ActionInput) :
    List PageOp × Except String ActionResult :=
  if jsTruthyStr input.ref then
    match env.resolveRef input.ref with
    | .error m => ([], .error m)
    | .ok none =>
      ([], .ok { success := false, error := some ("Ref \"" ++ jsUndef input.ref ++ "\" not found") })
    | .ok (some _) =>
      let button := input.button.getD "left"
      let op := PageOp.elemClick (jsUndef input.ref) button
      match env.runOp op with
      | .error m => ([op], .error m)
      | .ok _ => ([op], .ok { success := true, error := none })
  else
    match input.x, input.y with
    | some x, some y =>
      let button := input.button.getD "left"
      let op := PageOp.mouseClick x y button
      match env.runOp op with
      | .error m => ([op], .error m)
      | .ok _ => ([op], .ok { success := true, error := none })
    | _, _ =>
      ([], .ok { success := false, error := some "click requires ref or x,y coordinates" })

/-- Models `executeType(input)`. -/
def executeType (env : ExecEnv) (input : ActionInput) :
    List PageOp × Except String ActionResult :=
  if jsTruthyStr input.ref then
    match env.resolveRef input.ref with
    | .error m => ([], .error m)
    | .ok none =>
      ([], .ok { success := false, error := some ("Ref \"" ++ jsUndef input.ref ++ "\" not found") })
    | .ok (some _) =>
      if jsTruthyBool input.clear_first then
        let op := PageOp.elemFill (jsUndef input.ref) input.text
        match env.runOp op with
        | .error m => ([op], .error m)
        | .ok _ => ([op], .ok { success := true, error := none })
      else
        let op1 := PageOp.elemClickPlain (jsUndef input.ref)
        match env.runOp op1 with
        | .error m => ([op1], .error m)
        | .ok _ =>
          let op2 := PageOp.keyboardType input.text
          match env.runOp op2 with
          | .error m => ([op1, op2], .error m)
          | .ok _ => ([op1, op2], .ok { success := true, error := none })
  else
    if jsTruthyBool input.clear_first then
      let op1 := PageOp.keyboardPress (some "Control+a")
      match env.runOp op1 with
      | .error m => ([op1], .error m)
      | .ok _ =>
        let op2 := PageOp.keyboardType input.text
        match env.runOp op2 with
        | .error m => ([op1, op2], .error m)
        | .ok _ => ([op1, op2], .ok { success := true, error := none })
    else
      let op := PageOp.keyboardType input.text
      match env.runOp op with
      | .error m => ([op], .error m)
      | .ok _ => ([op], .ok { success := true, error := none })

/-- Models `executeScroll(input)`. -/
def executeScroll (env : ExecEnv) (input : ActionInput) :
    List PageOp × Except String ActionResult :=
  let amount := input.amount.getD 300
  let dx : Int := if input.direction = some "left" then -amount
                  else if input.direction = some "right" then amount else 0
  let dy : Int := if input.direction = some "up" then -amount
                  else if input.direction = some "down" then amount else 0
  let op := PageOp.mouseWheel dx dy
  match env.runOp op with
  | .error m => ([op], .error m)
  | .ok _ => ([op], .ok { success := true, error := none })

/-- Models `executeNavigate(input)`. -/
def executeNavigate (env : ExecEnv) (input : ActionInput) :
    List PageOp × Except String ActionResult :=
  let op := PageOp.gotoURL input.url
  match env.runOp op with
  | .error m => ([op], .error m)
  | .ok _ => ([op], .ok { success := true, error := none })

/-- Models `executeKeyboard(input)`. -/
def executeKeyboard (env : ExecEnv) (input : ActionInput) :
    List PageOp × Except String ActionResult :=
  let op := PageOp.keyboardPress input.key
  match env.runOp op with
  | .error m => ([op], .error m)
  | .ok _ => ([op], .ok { success := true, error := none })

/-- Models `executeWait(input)`. -/
def executeWait (env : ExecEnv) (input : ActionInput) :
    List PageOp × Except String ActionResult :=
  let op := PageOp.sleep (input.ms.getD 1000)
  match env.runOp op with
  | .error m => ([op], .error m)
  | .ok _ => ([op], .ok { success := true, error := none })

/-- Models `executeHover(input)`. -/
def executeHover (env : ExecEnv) (input : ActionInput) :
    List PageOp × Except String ActionResult :=
  if jsTruthyStr input.ref then
    match env.resolveRef input.ref with
    | .error m => ([], .error m)
    | .ok none =>
      ([], .ok { success := false, error := some ("Ref \"" ++ jsUndef input.ref ++ "\" not found") })
    | .ok (some _) =>
      let op := PageOp.elemHover (jsUndef input.ref)
      match env.runOp op with
      | .error m => ([op], .error m)
      | .ok _ => ([op], .ok { success := true, error := none })
  else
    match input.x, input.y with
    | some x, some y =>
      let op := PageOp.mouseMove x y
      match env.runOp op with
      | .error m => ([op], .error m)
      | .ok _ => ([op], .ok { success := true, error := none })
    | _, _ =>
      ([], .ok { success := false, error := some "hover requires ref or x,y coordinates" })

/-- Models `executeSelect(input)`: try select-by-value, fall back to
select-by-label on failure. -/
def executeSelect (env : ExecEnv) (input : ActionInput) :
    List PageOp × Except String ActionResult :=
  match env.resolveRef input.ref with
  | .error m => ([], .error m)
  | .ok none =>
    ([], .ok { success := false, error := some ("Ref \"" ++ jsUndef input.ref ++ "\" not found") })
  | .ok (some _) =>
    let op1 := PageOp.selectByValue input.ref input.value
    match env.runOp op1 with
    | .ok _ => ([op1], .ok { success := true, error := none })
    | .error _ =>
      let op2 := PageOp.selectByLabel input.ref input.value
      match env.runOp op2 with
      | .error m => ([op1, op2], .error m)
      | .ok _ => ([op1, op2], .ok { success := true, error := none })

/-- The `switch (action.name)` dispatch inside the executor's `try`
block.  An `.error` outcome is an exception escaping the switch. -/
def executeDispatch (env : ExecEnv) (action : AgentAction) :
    List PageOp × Except String ActionResult :=
  if action.name = "click" then executeClick env action.input
  else if action.name = "type" then executeType env action.input
  else if action.name = "scroll" then executeScroll env action.input
  else if action.name = "navigate" then executeNavigate env action.input
  else if action.name = "keyboard" then executeKeyboard env action.input
  else if action.name = "wait" then executeWait env action.input
  else if action.name = "hover" then executeHover env action.input
  else if action.name = "select" then executeSelect env action.input
  else if action.name = "done" then ([], .ok { success := true, error := none })
  else if action.name = "fail" then ([], .ok { success := true, error := none })
  else ([], .ok { success := false, error := some ("Unknown action: " ++ action.name) })

/-- Models `ActionExecutor.execute(action)`: the dispatch wrapped in
`try/catch`, so a thrown error becomes a failed result.  Returns the
result together with the page operations performed. -/
def ActionExecutor.execute (env : ExecEnv) (action : AgentAction) :
    ActionResult × List PageOp :=
  let r := executeDispatch env action
  match r.2 with
  | .ok res => (res, r.1)
  | .error m => ({ success := false, error := some m }, r.1)

/-- The ten known action kinds of the executor's switch. -/
def knownActionNames : List String :=
  ["click", "type", "scroll", "navigate", "keyboard", "wait", "hover", "select",
   "done", "fail"]

/-! ## Cycle entries and the History Compressor (src/vlm-client.ts) -/

structure CycleEntry where
  cycle : Nat
  timestamp : Nat
  pageUrl : String
  action : AgentAction
  reasoning : Option String
  result : ActionResult
  tokens : Option TokenUsage
  durationMs : Nat
deriving Repr, DecidableEq

/-- A minimal JSON rendering of a string value. -/
def jsonStr (s : String) : String := "\"" ++ s ++ "\""

/-- Models `JSON.stringify` of an action input: the present fields, in the
field order of the record, with absent (`undefined`) fields omitted. -/
def jsonStringifyInput (input : ActionInput) : String :=
  let fields : List (Option String) :=
    [input.ref.map (fun v => "\"ref\":" ++ jsonStr v),
     input.x.map (fun v => "\"x\":" ++ toString v),
     input.y.map (fun v => "\"y\":" ++ toString v),
     input.button.map (fun v => "\"button\":" ++ jsonStr v),
     input.text.map (fun v => "\"text\":" ++ jsonStr v),
     input.clear_first.map (fun v => "\"clear_first\":" ++ (if v then "true" else "false")),
     input.direction.map (fun v => "\"direction\":" ++ jsonStr v),
     input.amount.map (fun v => "\"amount\":" ++ toString v),
     input.url.map (fun v => "\"url\":" ++ jsonStr v),
     input.key.map (fun v => "\"key\":" ++ jsonStr v),
     input.ms.map (fun v => "\"ms\":" ++ toString v),
     input.value.map (fun v => "\"value\":" ++ jsonStr v),
     input.success.map (fun v => "\"success\":" ++ (if v then "true" else "false")),
     input.summary.map (fun v => "\"summary\":" ++ jsonStr v),
     input.reason.map (fun v => "\"reason\":" ++ jsonStr v),
     input.extracted_data.map (fun v => "\"extracted_data\":" ++ v)]
  "\x7b" ++ String.intercalate "," (fields.filterMap id) ++ "\x7d"

/-- Models `click(x,y)` / `hover(x,y)` rendering of the coordinate variants. -/
def formatCoords (kind : String) (input : ActionInput) : String :=
  kind ++ "(" ++ jsUndefInt input.x ++ "," ++ jsUndefInt input.y ++ ")"

/-- Models `formatAction(action)`.  On a `type` action the source reads
`text.length` without a presence check, so an absent `text` throws a
`TypeError`; thrown exceptions are the `.error` outcome. -/
def formatAction (action : AgentAction) : Except String String :=
  if action.name = "click" then
    .ok (if jsTruthyStr action.input.ref then "click(ref=" ++ jsUndef action.input.ref ++ ")"
         else formatCoords "click" action.input)
  else if action.name = "type" then
    match action.input.text with
    | none => .error "TypeError: Cannot read properties of undefined (reading 'length')"
    | some text =>
      let preview := if 20 < text.length then text.take 20 ++ "..." else text
      .ok ("type(\"" ++ preview ++ "\")")
  else if action.name = "scroll" then
    .ok ("scroll(" ++ jsUndef action.input.direction ++ ")")
  else if action.name = "navigate" then
    .ok ("navigate(" ++ jsUndef action.input.url ++ ")")
  else if action.name = "keyboard" then
    .ok ("keyboard(" ++ jsUndef action.input.key ++ ")")
  else if action.name = "wait" then
    .ok ("wait(" ++ toString (action.input.ms.getD 1000) ++ "ms)")
  else if action.name = "hover" then
    .ok (if jsTruthyStr action.input.ref then "hover(ref=" ++ jsUndef action.input.ref ++ ")"
         else formatCoords "hover" action.input)
  else if action.name = "select" then
    .ok ("select(ref=" ++ jsUndef action.input.ref ++ ", \"" ++
      jsUndef action.input.value ++ "\")")
  else if action.name = "done" then
    .ok ("done(" ++ (if jsTruthyBool action.input.success then "success" else "failure") ++ ")")
  else if action.name = "fail" then
    .ok ("fail(\"" ++ jsUndef action.input.reason ++ "\")")
  else
    .ok (action.name ++ "(" ++ jsonStringifyInput action.input ++ ")")

/-- One detailed history line:
`<cycle+1>. <formattedAction> → <OK | FAILED: error>`; a `formatAction`
exception propagates. -/
def renderEntry (entry : CycleEntry) : Except String String :=
  let status := if entry.result.success then "OK" else "FAILED: " ++ jsUndef entry.result.error
  match formatAction entry.action with
  | .error m => .error m
  | .ok actionStr => .ok (toString (entry.cycle + 1) ++ ". " ++ actionStr ++ " → " ++ status)

/-- The `for (const entry of recent)` rendering loop: one line per entry
in order, aborted by the first entry whose rendering throws. -/
def renderLines : List CycleEntry → Except String (List String)
  | [] => .ok []
  | entry :: rest =>
    match renderEntry entry with
    | .error m => .error m
    | .ok line =>
      match renderLines rest with
      | .error m => .error m
      | .ok lines => .ok (line :: lines)

/-- The summary line prepended when the history is longer than
`maxDetailed`. -/
def summaryLine (older : List CycleEntry) : String :=
  let successes := older.countP (fun e => e.result.success)
  "[" ++ toString older.length ++ " earlier actions: " ++ toString successes ++
    " succeeded, " ++ toString (older.length - successes) ++ " failed]"

/-- Models `entries.slice(-n)`: the last `n` entries, or the whole list when
`n = 0` (JS `slice(-0)` is `slice(0)`). -/
def jsSliceLast (entries : List CycleEntry) (n : Nat) : List CycleEntry :=
  if n = 0 then entries else entries.drop (entries.length - n)

/-- Models `compressHistory(entries, maxDetailed)` (the caller's default
for `maxDetailed` is 10).  A rendering exception propagates to the
caller as the `.error` outcome. -/
def compressHistory (entries : List CycleEntry) (maxDetailed : Nat) : Except String String :=
  if entries.isEmpty then .ok ""
  else
    let older :=
      if maxDetailed < entries.length then
        [summaryLine (entries.take (entries.length - maxDetailed))]
      else []
    match renderLines (jsSliceLast entries maxDetailed) with
    | .error m => .error m
    | .ok lines => .ok (String.intercalate "\n" (older ++ lines))

/-! ## Perception Loop (src/perception-loop.ts)

The loop's collaborators are oracle inputs: a per-cycle event record
supplies the wall-clock instants, the page URL, the screenshot outcome
(after the source's one in-cycle navigation-recovery retry), the
resampled thumbnail outcome, the vision-model outcome, and the executor's
environment.  `.error` outcomes model thrown exceptions and reach the
cycle's catch handler. -/

structure SafetyConfig where
  readOnlyMode : Bool
  blockedURLPatterns : List String
deriving Repr, DecidableEq

/-- The `{ allowed, reason? }` shape returned by `validateAction`. -/
structure SafetyDecision where
  allowed : Bool
  reason : Option String
deriving Repr, DecidableEq

/-- The action kinds permitted in read-only mode. -/
def allowedInReadOnly : List String :=
  ["scroll", "navigate", "wait", "done", "fail", "hover"]

/-- Models `validateAction(action, currentUrl)`.  `rt pattern url` models
`new RegExp(pattern).test(url)`.  The source ignores `currentUrl`; the
parameter is kept for fidelity. -/
def validateAction (safety : Option SafetyConfig) (rt : String → String → Bool)
    (action : AgentAction) (_currentUrl : String) : SafetyDecision :=
  match safety with
  | none => { allowed := true, reason := none }
  | some s =>
    if s.readOnlyMode && !(allowedInReadOnly.contains action.name) then
      { allowed := false
        reason := some ("Action \"" ++ action.name ++ "\" blocked in read-only mode") }
    else if action.name = "navigate" && !(s.blockedURLPatterns.isEmpty) then
      match s.blockedURLPatterns.find? (fun p => rt p (jsUndef action.input.url)) with
      | some p =>
        { allowed := false
          reason := some ("URL \"" ++ jsUndef action.input.url ++ "\" blocked by pattern: " ++ p) }
      | none => { allowed := true, reason := none }
    else { allowed := true, reason := none }

/-- The loop configuration fields that decide control flow. -/
structure LoopConfig where
  maxCycles : Nat
  maxConsecutiveErrors : Nat
  safety : Option SafetyConfig
  limits : BudgetLimits
deriving Repr, DecidableEq

/-- The external events of one cycle. -/
structure CycleEvents where
  now : Nat
  tEnd : Nat
  url : String
  screenshot : Except String ByteSeq
  thumb : Except String ByteSeq
  vlm : Except String (AgentAction × Option String × TokenUsage)
  execEnv : ExecEnv

/-- The loop's mutable state between cycles.  `audit` is the sequence of
entries written to `cycles.jsonl` by the audit logger. -/
structure LoopSt where
  cycle : Nat
  history : List CycleEntry
  audit : List CycleEntry
  consecutiveErrors : Nat
  budget : BudgetController
  sampler : FrameSampler

/-- The budget-usage snapshot embedded in a loop result. -/
structure BudgetUsed where
  cycles : Nat
  estimatedTokens : Nat
  estimatedCostUSD : ℚ
  durationMs : Nat
deriving Repr, DecidableEq

structure LoopResult where
  success : Bool
  summary : String
  cycles : Nat
  extractedData : Option String
  budgetUsed : BudgetUsed
deriving Repr, DecidableEq

/-- Models `buildResult(success, summary, history, extractedData)` at wall-clock
instant `now`. -/
def buildResult (success : Bool) (summary : String) (history : List CycleEntry)
    (extractedData : Option String) (budget : BudgetController) (now : Nat) : LoopResult :=
  { success, summary, cycles := history.length, extractedData
    budgetUsed :=
      { cycles := budget.cycles
        estimatedTokens := budget.inputTokens + budget.outputTokens
        estimatedCostUSD := budget.estimateCost
        durationMs := now - budget.startTime } }

/-- The cycle's catch handler: a synthetic `error` entry is recorded and
the consecutive-error counter is incremented (the budget is not informed;
the catch path reports no token usage). -/
def catchCycle (ev : CycleEvents) (errMsg : String) (s : LoopSt) : LoopSt :=
  let entry : CycleEntry :=
    { cycle := s.cycle, timestamp := ev.tEnd, pageUrl := ev.url
      action := { name := "error", input := emptyInput }, reasoning := none
      result := { success := false, error := some errMsg }, tokens := none
      durationMs := ev.tEnd - ev.now }
  { s with consecutiveErrors := s.consecutiveErrors + 1
           history := s.history ++ [entry]
           audit := s.audit ++ [entry]
           cycle := s.cycle + 1 }

/-- Append a cycle entry to history and audit, inform the budget, and
advance to the next cycle index. -/
def recordCycle (s : LoopSt) (entry : CycleEntry) (usage : TokenUsage) : LoopSt :=
  { s with history := s.history ++ [entry]
           audit := s.audit ++ [entry]
           budget := s.budget.onCycleComplete usage
           cycle := s.cycle + 1 }

/-- Models `consecutiveErrors++`. -/
def LoopSt.addConsecutiveError (s : LoopSt) : LoopSt :=
  { s with consecutiveErrors := s.consecutiveErrors + 1 }

/-- The body of `run` from a given loop state, with `fuel` remaining
iterations of the `for (let cycle = 0; cycle < maxCycles; cycle++)` loop.
Returns the loop result and the final audit-log contents. -/
def runFrom (cfg : LoopConfig) (rt : String → String → Bool) (env : Nat → CycleEvents) :
    Nat → LoopSt → LoopResult × List CycleEntry
  | 0, s =>
    (buildResult false ("Max cycles reached (" ++ toString cfg.maxCycles ++ ")")
       s.history none s.budget (env s.cycle).now, s.audit)
  | fuel + 1, s =>
    let ev := env s.cycle
    let bc := s.budget.canProceed ev.now
    if bc.allowed = false then
      (buildResult false ("Budget exceeded: " ++ jsUndef bc.reason) s.history none
         s.budget ev.now, s.audit)
    else
      match ev.screenshot with
      | .error e =>
        let sc1 := catchCycle ev e s
        if cfg.maxConsecutiveErrors ≤ sc1.consecutiveErrors then
          (buildResult false ("Stopped after " ++ toString sc1.consecutiveErrors ++
             " consecutive errors") sc1.history none sc1.budget ev.tEnd, sc1.audit)
        else runFrom cfg rt env fuel sc1
      | .ok _ =>
        match ev.thumb with
        | .error e =>
          let sc1 := catchCycle ev e s
          if cfg.maxConsecutiveErrors ≤ sc1.consecutiveErrors then
            (buildResult false ("Stopped after " ++ toString sc1.consecutiveErrors ++
               " consecutive errors") sc1.history none sc1.budget ev.tEnd, sc1.audit)
          else runFrom cfg rt env fuel sc1
        | .ok thumb =>
          let s1 : LoopSt := { s with sampler := (s.sampler.hasChanged thumb).2 }
          match ev.vlm with
          | .error e =>
            let sc1 := catchCycle ev e s1
            if cfg.maxConsecutiveErrors ≤ sc1.consecutiveErrors then
              (buildResult false ("Stopped after " ++ toString sc1.consecutiveErrors ++
                 " consecutive errors") sc1.history none sc1.budget ev.tEnd, sc1.audit)
            else runFrom cfg rt env fuel sc1
          | .ok (action, reasoning, usage) =>
            let sc := validateAction cfg.safety rt action ev.url
            if sc.allowed = false then
              let entry : CycleEntry :=
                { cycle := s.cycle, timestamp := ev.tEnd, pageUrl := ev.url, action, reasoning
                  result := { success := false, error := some ("Blocked: " ++ jsUndef sc.reason) }
                  tokens := some usage, durationMs := ev.tEnd - ev.now }
              let s2 := (recordCycle s1 entry usage).addConsecutiveError
              runFrom cfg rt env fuel s2
            else if action.name = "done" then
              let entry : CycleEntry :=
                { cycle := s.cycle, timestamp := ev.tEnd, pageUrl := ev.url, action, reasoning
                  result := { success := true, error := none }, tokens := some usage
                  durationMs := ev.tEnd - ev.now }
              let s2 := recordCycle s1 entry usage
              (buildResult (jsTruthyBool action.input.success) (jsUndef action.input.summary)
                 s2.history action.input.extracted_data s2.budget ev.tEnd, s2.audit)
            else if action.name = "fail" then
              let entry : CycleEntry :=
                { cycle := s.cycle, timestamp := ev.tEnd, pageUrl := ev.url, action, reasoning
                  result := { success := true, error := none }, tokens := some usage
                  durationMs := ev.tEnd - ev.now }
              let s2 := recordCycle s1 entry usage
              (buildResult false (jsUndef action.input.reason) s2.history none s2.budget
                 ev.tEnd, s2.audit)
            else
              let ares := (ActionExecutor.execute ev.execEnv action).1
              let entry : CycleEntry :=
                { cycle := s.cycle, timestamp := ev.tEnd, pageUrl := ev.url, action, reasoning
                  result := ares, tokens := some usage, durationMs := ev.tEnd - ev.now }
              let s2 := recordCycle s1 entry usage
              if ares.success then
                runFrom cfg rt env fuel { s2 with consecutiveErrors := 0 }
              else
                let consec := s1.consecutiveErrors + 1
                if cfg.maxConsecutiveErrors ≤ consec then
                  (buildResult false ("Stopped after " ++ toString consec ++
                     " consecutive errors. Last error: " ++ jsUndef ares.error)
                     s2.history none s2.budget ev.tEnd, s2.audit)
                else
                  runFrom cfg rt env fuel { s2 with consecutiveErrors := consec }

/-- Models `run(client, pageName, task)`: the loop from a fresh state, with the
budget controller constructed at wall-clock instant `startTime` and the
sampler at its configured threshold. -/
def runLoop (cfg : LoopConfig) (rt : String → String → Bool) (env : Nat → CycleEvents)
    (diffThreshold : Option ℚ) (startTime : Nat) : LoopResult × List CycleEntry :=
  runFrom cfg rt env cfg.maxCycles
    { cycle := 0, history := [], audit := [], consecutiveErrors := 0
      budget := BudgetController.init cfg.limits startTime
      sampler := FrameSampler.init diffThreshold none }

/-- The per-page recording invariant: any present recording state is
active and its console-log start index is within the log vector. -/
def pageInv (e : PageEntry) : Prop :=
  ∀ r, e.recording = some r →
    r.isRecording = true ∧ r.recordingStartIndex ≤ e.consoleLogs.length

/-- The cycle entry the loop writes for a terminal `fail` action. -/
def failCycleEntry (s : LoopSt) (ev : CycleEvents) (inp : ActionInput)
    (r : Option String) (u : TokenUsage) : CycleEntry :=
  { cycle := s.cycle, timestamp := ev.tEnd, pageUrl := ev.url,
    action := { name := "fail", input := inp }, reasoning := r,
    result := { success := true, error := none }, tokens := some u,
    durationMs := ev.tEnd - ev.now }

/-- The demonstration action input for the C8 witness. -/
def failDemoInput : ActionInput := { emptyInput with reason := some "cannot log in" }

/-- The demonstration per-cycle events for the C8 witness. -/
def failDemoEvents : CycleEvents :=
  { now := 0, tEnd := 1, url := "u", screenshot := .ok [0], thumb := .ok [0],
    vlm := .ok ({ name := "fail", input := failDemoInput }, none, { input := 1, output := 1 }),
    execEnv := { resolveRef := fun _ => .ok none, runOp := fun _ => .ok () } }

/-- The demonstration loop configuration and fresh state for the C8 witness. -/
def failDemoConfig : LoopConfig :=
  { maxCycles := 3, maxConsecutiveErrors := 5, safety := none,
    limits := defaultBudgetLimits }

def failDemoState : LoopSt :=
  { cycle := 0, history := [], audit := [], consecutiveErrors := 0,
    budget := BudgetController.init defaultBudgetLimits 0,
    sampler := FrameSampler.init none none }

/-- A cycle entry whose `type` action carries no `text` field; rendering
it throws in the source. -/
def typeNoTextEntry : CycleEntry :=
  { cycle := 0, timestamp := 0, pageUrl := "u",
    action := { name := "type", input := emptyInput }, reasoning := none,
    result := { success := true, error := none }, tokens := none, durationMs := 0 }

/-- Three renderable cycle entries used to exercise the history
compressor at `maxDetailed 2`. -/
def historyDemoEntries : List CycleEntry :=
  [{ cycle := 0, timestamp := 0, pageUrl := "u",
     action := { name := "wait", input := emptyInput }, reasoning := none,
     result := { success := true, error := none }, tokens := none, durationMs := 0 },
   { cycle := 1, timestamp := 0, pageUrl := "u",
     action := { name := "wait", input := emptyInput }, reasoning := none,
     result := { success := false, error := some "boom" }, tokens := none, durationMs := 0 },
   { cycle := 2, timestamp := 0, pageUrl := "u",
     action := { name := "wait", input := emptyInput }, reasoning := none,
     result := { success := true, error := none }, tokens := none, durationMs := 0 }]

/-! ## Theorems -/

lemma countDiffPixels_self (t : ByteSeq) : countDiffPixels t t = 0 := by
  induction t with
  | nil => rfl
  | cons x xs ih => simp [countDiffPixels, pixelDelta, ih]

lemma computeDiff_self (t : ByteSeq) (h : t ≠ []) : FrameSampler.computeDiff t t = 0 := by
  have hlen : t.length ≠ 0 := by simpa using List.length_pos.mpr h |>.ne'
  simp [FrameSampler.computeDiff, hlen, countDiffPixels_self]

/-- Claim C3: starting from a fresh sampler, six consecutive `hasChanged`
calls on byte-identical frames return `true, false, false, false, false,
true`: the first call accepts (no cached thumbnail), the next four
increment the skip counter, and the call at which the counter reaches 5
returns true and resets it. -/
theorem sampler_heartbeat_sequence (t : ByteSeq) (h : t ≠ []) :
    (FrameSampler.init none none).hasChangedSeq [t, t, t, t, t, t] =
      [true, false, false, false, false, true]
    ∧ ((FrameSampler.init none none).runSeq [t, t, t, t, t, t]).consecutiveSkips = 0 := by
  have hd : FrameSampler.computeDiff t t = 0 := computeDiff_self t h
  have hneg : ¬ ((5 : ℚ) / 100 < 0) := by norm_num
  constructor <;>
    simp [FrameSampler.hasChangedSeq, FrameSampler.runSeq, FrameSampler.hasChanged,
      FrameSampler.init, hd, hneg]

/-- Witness for C3 at a concrete one-byte thumbnail. -/
theorem sampler_heartbeat_sequence_witness :
    (FrameSampler.init none none).hasChangedSeq [[128], [128], [128], [128], [128], [128]] =
      [true, false, false, false, false, true]
    ∧ ((FrameSampler.init none none).runSeq
        [[128], [128], [128], [128], [128], [128]]).consecutiveSkips = 0 :=
  sampler_heartbeat_sequence [128] (by decide)

lemma canProceed_allowed_iff (b : BudgetController) (now : Nat) :
    (b.canProceed now).allowed = true ↔
      (b.cycles < b.limits.maxCycles ∧ b.inputTokens + b.outputTokens < b.limits.maxTokens ∧
       b.estimateCost < b.limits.maxCostUSD ∧ now - b.startTime < b.limits.maxDurationMs) := by
  unfold BudgetController.canProceed
  dsimp only
  split_ifs with h1 h2 h3 h4
  · exact iff_of_false (by simp) (fun hcon => absurd hcon.1 (by omega))
  · exact iff_of_false (by simp) (fun hcon => absurd hcon.2.1 (by omega))
  · exact iff_of_false (by simp) (fun hcon => absurd hcon.2.2.1 (not_lt.mpr h3))
  · exact iff_of_false (by simp) (fun hcon => absurd hcon.2.2.2 (by omega))
  · exact iff_of_true rfl ⟨by omega, by omega, not_le.mp h3, by omega⟩

lemma canProceed_allowed_case (b : BudgetController) (now : Nat)
    (h1 : b.cycles < b.limits.maxCycles)
    (h2 : b.inputTokens + b.outputTokens < b.limits.maxTokens)
    (h3 : b.estimateCost < b.limits.maxCostUSD)
    (h4 : now - b.startTime < b.limits.maxDurationMs) :
    b.canProceed now = { allowed := true, reason := none } := by
  unfold BudgetController.canProceed
  dsimp only
  rw [if_neg (by omega), if_neg (by omega), if_neg (not_le.mpr h3), if_neg (by omega)]

/-- Claim C4: `canProceed` evaluates the four limits in the fixed order
cycles, tokens, cost, duration; it reports the reason of the first
violated limit and is allowed (with no reason) exactly when none is
violated; the cost is recomputed from the accumulated tokens at the
fixed rates. -/
theorem budget_canProceed_first_violation (b : BudgetController) (now : Nat) :
    b.estimateCost = ((b.inputTokens * 3 + b.outputTokens * 15 : ℕ) : ℚ) / 1000000
    ∧ ((b.canProceed now).allowed = true ↔
        b.cycles < b.limits.maxCycles ∧ b.inputTokens + b.outputTokens < b.limits.maxTokens ∧
        b.estimateCost < b.limits.maxCostUSD ∧ now - b.startTime < b.limits.maxDurationMs)
    ∧ ((b.canProceed now).allowed = true → (b.canProceed now).reason = none)
    ∧ (b.limits.maxCycles ≤ b.cycles →
        b.canProceed now =
          { allowed := false
            reason := some ("Max cycles reached (" ++ toString b.limits.maxCycles ++ ")") })
    ∧ (b.cycles < b.limits.maxCycles →
       b.limits.maxTokens ≤ b.inputTokens + b.outputTokens →
        b.canProceed now =
          { allowed := false
            reason := some ("Max tokens reached (" ++
              toString (b.inputTokens + b.outputTokens) ++ "/" ++
              toString b.limits.maxTokens ++ ")") })
    ∧ (b.cycles < b.limits.maxCycles →
       b.inputTokens + b.outputTokens < b.limits.maxTokens →
       b.limits.maxCostUSD ≤ b.estimateCost →
        b.canProceed now =
          { allowed := false
            reason := some ("Max cost reached ($" ++ fixed2 b.estimateCost ++ "/$" ++
              fixed2 b.limits.maxCostUSD ++ ")") })
    ∧ (b.cycles < b.limits.maxCycles →
       b.inputTokens + b.outputTokens < b.limits.maxTokens →
       b.estimateCost < b.limits.maxCostUSD →
       b.limits.maxDurationMs ≤ now - b.startTime →
        b.canProceed now =
          { allowed := false
            reason := some ("Max duration reached (" ++
              toString (jsRoundMsToSec (now - b.startTime)) ++ "s/" ++
              toString (jsRoundMsToSec b.limits.maxDurationMs) ++ "s)") }) := by
  refine ⟨?_, canProceed_allowed_iff b now, ?_, ?_, ?_, ?_, ?_⟩
  · unfold BudgetController.estimateCost
    push_cast
    ring
  · intro h
    obtain ⟨h1, h2, h3, h4⟩ := (canProceed_allowed_iff b now).mp h
    rw [canProceed_allowed_case b now h1 h2 h3 h4]
  · intro h1
    unfold BudgetController.canProceed
    rw [if_pos h1]
  · intro h1 h2
    unfold BudgetController.canProceed
    rw [if_neg (by omega), if_pos h2]
  · intro h1 h2 h3
    unfold BudgetController.canProceed
    rw [if_neg (by omega), if_neg (by omega), if_pos h3]
  · intro h1 h2 h3 h4
    unfold BudgetController.canProceed
    rw [if_neg (by omega), if_neg (by omega), if_neg (not_le.mpr h3), if_pos h4]

/-- Witness for C4: a controller past its cycle limit is denied with the
cycles reason; a fresh controller within all limits is allowed. -/
theorem budget_canProceed_first_violation_witness :
    BudgetController.canProceed
        { cycles := 5, inputTokens := 0, outputTokens := 0, startTime := 0
          limits := { maxCycles := 5, maxTokens := 100, maxCostUSD := 1, maxDurationMs := 1000 } }
        0 =
      { allowed := false, reason := some "Max cycles reached (5)" } :=
  (budget_canProceed_first_violation _ 0).2.2.2.1 (by decide)

lemma runCycles_cycles_le (b : BudgetController) (l : List TokenUsage) :
    b.cycles ≤ (b.runCycles l).cycles := by
  induction l generalizing b with
  | nil => exact le_refl _
  | cons u us ih =>
    calc b.cycles ≤ (b.onCycleComplete u).cycles := by
          simp [BudgetController.onCycleComplete]
      _ ≤ _ := ih _

lemma runCycles_inputTokens_le (b : BudgetController) (l : List TokenUsage) :
    b.inputTokens ≤ (b.runCycles l).inputTokens := by
  induction l generalizing b with
  | nil => exact le_refl _
  | cons u us ih =>
    calc b.inputTokens ≤ (b.onCycleComplete u).inputTokens := by
          simp [BudgetController.onCycleComplete]
      _ ≤ _ := ih _

lemma runCycles_outputTokens_le (b : BudgetController) (l : List TokenUsage) :
    b.outputTokens ≤ (b.runCycles l).outputTokens := by
  induction l generalizing b with
  | nil => exact le_refl _
  | cons u us ih =>
    calc b.outputTokens ≤ (b.onCycleComplete u).outputTokens := by
          simp [BudgetController.onCycleComplete]
      _ ≤ _ := ih _

lemma runCycles_startTime_eq (b : BudgetController) (l : List TokenUsage) :
    (b.runCycles l).startTime = b.startTime := by
  induction l generalizing b with
  | nil => rfl
  | cons u us ih => simpa [BudgetController.onCycleComplete] using ih (b.onCycleComplete u)

lemma runCycles_limits_eq (b : BudgetController) (l : List TokenUsage) :
    (b.runCycles l).limits = b.limits := by
  induction l generalizing b with
  | nil => rfl
  | cons u us ih => simpa [BudgetController.onCycleComplete] using ih (b.onCycleComplete u)

lemma estimateCost_mono (b1 b2 : BudgetController)
    (hin : b1.inputTokens ≤ b2.inputTokens) (hout : b1.outputTokens ≤ b2.outputTokens) :
    b1.estimateCost ≤ b2.estimateCost := by
  unfold BudgetController.estimateCost
  gcongr

/-- Claim C5: budget denial is absorbing — once `canProceed` denies, it
denies after every further sequence of `onCycleComplete` calls and at
every later wall-clock instant, because the counters never decrease and
elapsed time is non-decreasing. -/
theorem budget_denial_absorbing (b : BudgetController) (now1 now2 : Nat)
    (l : List TokenUsage)
    (hden : (b.canProceed now1).allowed = false) (hle : now1 ≤ now2) :
    ((b.runCycles l).canProceed now2).allowed = false := by
  by_contra hc
  have hall : ((b.runCycles l).canProceed now2).allowed = true := by
    cases h : ((b.runCycles l).canProceed now2).allowed
    · exact absurd h hc
    · rfl
  obtain ⟨h1, h2, h3, h4⟩ := (canProceed_allowed_iff _ _).mp hall
  rw [runCycles_limits_eq] at h1 h2 h3 h4
  rw [runCycles_startTime_eq] at h4
  have hb : (b.canProceed now1).allowed = true := by
    refine (canProceed_allowed_iff _ _).mpr ⟨?_, ?_, ?_, ?_⟩
    · exact lt_of_le_of_lt (runCycles_cycles_le b l) h1
    · have := Nat.add_le_add (runCycles_inputTokens_le b l) (runCycles_outputTokens_le b l)
      omega
    · exact lt_of_le_of_lt
        (estimateCost_mono b _ (runCycles_inputTokens_le b l) (runCycles_outputTokens_le b l)) h3
    · omega
  rw [hb] at hden
  exact absurd hden (by simp)

/-- Witness for C5: a controller denied at its cycle limit stays denied
after a further completed cycle and at a later instant. -/
theorem budget_denial_absorbing_witness :
    ((BudgetController.runCycles
        { cycles := 3, inputTokens := 10, outputTokens := 10, startTime := 0
          limits := { maxCycles := 3, maxTokens := 1000, maxCostUSD := 1, maxDurationMs := 1000 } }
        [{ input := 7, output := 2 }]).canProceed 500).allowed = false :=
  budget_denial_absorbing _ 100 500 _ (by decide) (by omega)

/-- Claim C2 counterexample: a buffer of 3 frames with `keyFrameCount 5`.
The claim predicts `count = 5` files at buffer indices
`i · ⌊len/count⌋ = i · 0 = 0`; the code writes only 3 files, at indices
0, 1, 2 (its step is `max(1, ⌊len/count⌋) = 1` and the loop stops when
`i · step` reaches the buffer length). -/
theorem keyframes_small_buffer_counterexample :
    extractKeyFrames [[0], [1], [2]] 5 "v.webm" =
      [("v-keyframe-1.jpg", [0]), ("v-keyframe-2.jpg", [1]), ("v-keyframe-3.jpg", [2])]
    ∧ ¬ (extractKeyFrames [[0], [1], [2]] 5 "v.webm" =
        (List.range 5).map (fun i =>
          (keyFramePath "v.webm" (i + 1),
           ([[0], [1], [2]] : List ByteSeq).getD (i * (3 / 5)) []))) := by
  constructor <;> simp [extractKeyFrames, extractKeyFramesLoop] <;> decide

lemma extractKeyFramesLoop_eq_range' (buf : List ByteSeq) (count step : Nat)
    (basePath : String) (hstep : 1 ≤ step) (hbound : count * step ≤ buf.length) :
    ∀ k i, count - i ≤ k →
      extractKeyFramesLoop buf count step basePath i =
        (List.range' i (count - i)).map
          (fun j => (keyFramePath basePath (j + 1), buf.getD (j * step) [])) := by
  intro k
  induction k with
  | zero =>
    intro i hi
    rw [extractKeyFramesLoop, dif_neg (fun hcon => absurd hcon.1 (by omega))]
    have hz : count - i = 0 := by omega
    simp [hz]
  | succ k ih =>
    intro i hi
    by_cases hic : i < count
    · have hib : i * step < buf.length := by
        have h1 : (i + 1) * step ≤ count * step := Nat.mul_le_mul_right step (by omega)
        have h2 : i * step + step = (i + 1) * step := by ring
        omega
      rw [extractKeyFramesLoop, dif_pos ⟨hic, hib⟩]
      have hsome : buf.get? (i * step) = some (buf.get ⟨i * step, hib⟩) :=
        List.get?_eq_get hib
      rw [hsome]
      dsimp only
      rw [ih (i + 1) (by omega)]
      have hcnt : count - i = (count - (i + 1)) + 1 := by omega
      rw [hcnt, List.range'_succ, List.map_cons]
      have hgd : buf.getD (i * step) [] = buf.get ⟨i * step, hib⟩ := by
        rw [List.getD_eq_getElem _ _ hib]
        simp [List.get_eq_getElem]
      rw [hgd]
    · rw [extractKeyFramesLoop, dif_neg (fun hcon => absurd hcon.1 hic)]
      have hz : count - i = 0 := by omega
      simp [hz]

/-- Claim C2 as amended: when `1 ≤ count ≤ len`, `extractKeyFrames`
writes exactly `count` files named `-keyframe-1` … `-keyframe-count`,
taken from buffer indices `i · ⌊len/count⌋` for `i = 0 .. count−1` (so a
10-frame buffer with count 5 yields indices 0, 2, 4, 6, 8). -/
theorem extractKeyFrames_uniform_selection (buf : List ByteSeq) (count : Nat)
    (basePath : String) (h1 : 1 ≤ count) (h2 : count ≤ buf.length) :
    extractKeyFrames buf count basePath =
      (List.range count).map (fun i =>
        (keyFramePath basePath (i + 1), buf.getD (i * (buf.length / count)) [])) := by
  have hlen : 0 < buf.length := by omega
  have hstep : 1 ≤ buf.length / count := (Nat.one_le_div_iff (by omega)).mpr h2
  have hmax : max 1 (buf.length / count) = buf.length / count := max_eq_right hstep
  have hbound : count * (buf.length / count) ≤ buf.length := by
    calc count * (buf.length / count) = buf.length / count * count := by ring
      _ ≤ buf.length := Nat.div_mul_le_self _ _
  unfold extractKeyFrames
  rw [if_neg (by simp [List.isEmpty_iff]; exact List.ne_nil_of_length_pos hlen)]
  dsimp only
  rw [hmax]
  rw [extractKeyFramesLoop_eq_range' buf count (buf.length / count) basePath hstep hbound
    count 0 (by omega)]
  rw [List.range_eq_range']
  simp

/-- Witness for C2 (amended): the claim's own example — 10 buffered
frames, `keyFrameCount 5` — yields files 1..5 from indices 0, 2, 4, 6, 8. -/
theorem extractKeyFrames_uniform_selection_witness :
    extractKeyFrames [[0], [1], [2], [3], [4], [5], [6], [7], [8], [9]] 5 "rec.webm" =
      [("rec-keyframe-1.jpg", [0]), ("rec-keyframe-2.jpg", [2]), ("rec-keyframe-3.jpg", [4]),
       ("rec-keyframe-4.jpg", [6]), ("rec-keyframe-5.jpg", [8])] := by
  have h := extractKeyFrames_uniform_selection
    [[0], [1], [2], [3], [4], [5], [6], [7], [8], [9]] 5 "rec.webm"
    (by decide) (by decide)
  rw [h]
  simp only [List.range]
  decide

lemma applyRegOp_preserves_inv (encoder : List ByteSeq → String → String)
    (e : PageEntry) (op : RegOp) (hInv : pageInv e)
    (hguard : op = RegOp.clearLogs → e.recActive = false) :
    pageInv (applyRegOp encoder e op) := by
  cases op with
  | pushLog l =>
    intro r hr
    simp only [applyRegOp, PageEntry.pushConsoleLog] at hr ⊢
    obtain ⟨h1, h2⟩ := hInv r hr
    refine ⟨h1, ?_⟩
    simp only [List.length_append, List.length_cons, List.length_nil]
    omega
  | clearLogs =>
    intro r hr
    simp only [applyRegOp, PageEntry.clearConsole] at hr
    obtain ⟨h1, _⟩ := hInv r hr
    have hact : e.recActive = true := by simp [PageEntry.recActive, hr, h1]
    rw [hguard rfl] at hact
    exact absurd hact (by simp)
  | startRec opts now path cdpOk errMsg =>
    intro r hr
    by_cases ha : e.recActive
    · simp only [applyRegOp, PageEntry.startRecording, ha, if_true] at hr ⊢
      exact hInv r hr
    · by_cases hc : cdpOk
      · simp only [applyRegOp, PageEntry.startRecording, ha, hc, Bool.false_eq_true,
          if_false, if_true, Option.some.injEq] at hr ⊢
        subst hr
        exact ⟨rfl, le_refl _⟩
      · simp only [applyRegOp, PageEntry.startRecording, ha, hc, Bool.false_eq_true,
          if_false] at hr ⊢
        exact absurd hr (by simp)
  | frame d ackOk =>
    intro r hr
    cases hrec : e.recording with
    | none =>
      simp only [applyRegOp, PageEntry.screencastFrame, hrec] at hr ⊢
      exact absurd hr (by simp)
    | some r0 =>
      obtain ⟨h1, h2⟩ := hInv r0 hrec
      by_cases hao : ackOk
      · simp only [applyRegOp, PageEntry.screencastFrame, hrec, h1, hao, if_true,
          Option.some.injEq] at hr ⊢
        subst hr
        exact ⟨rfl, h2⟩
      · simp only [applyRegOp, PageEntry.screencastFrame, hrec, h1, hao, Bool.false_eq_true,
          if_false, if_true] at hr ⊢
        obtain rfl := Option.some.inj hr
        exact ⟨h1, h2⟩
  | stopRec now =>
    intro r hr
    cases hrec : e.recording with
    | none =>
      simp only [applyRegOp, PageEntry.stopRecording, hrec] at hr ⊢
      exact absurd hr (by simp)
    | some r0 =>
      obtain ⟨h1, _⟩ := hInv r0 hrec
      simp only [applyRegOp, PageEntry.stopRecording, hrec, h1, if_true] at hr
      exact absurd hr (by simp)

lemma applyRegOps_inv (encoder : List ByteSeq → String → String) :
    ∀ (ops : List RegOp) (e : PageEntry), pageInv e →
      noClearWhileRecording encoder e ops = true →
      pageInv (applyRegOps encoder e ops) := by
  intro ops
  induction ops with
  | nil => intro e h _; simpa [applyRegOps] using h
  | cons op ops ih =>
    intro e hInv hnc
    rw [noClearWhileRecording, Bool.and_eq_true] at hnc
    obtain ⟨hg, hrest⟩ := hnc
    have hguard : op = RegOp.clearLogs → e.recActive = false := by
      intro hop; subst hop; simpa [regOpClearGuard] using hg
    have hstep := applyRegOp_preserves_inv encoder e op hInv hguard
    simpa [applyRegOps] using ih (applyRegOp encoder e op) hstep hrest

/-- Claim C1 counterexample: push one console log, start a recording
(start index 1), then hit the DELETE console endpoint.  The reachable
state has `recordingStartIndex = 1 > 0 = len(consoleLogs)`: the invariant
does not survive the console-clear interleaving, because the clear
handler empties the vector without touching the recording's index. -/
theorem recording_clear_console_counterexample :
    ((applyRegOps (fun _ p => p) PageEntry.init
        [RegOp.pushLog "boot",
         RegOp.startRec defaultRecordingOptions 0 "p.webm" true "",
         RegOp.clearLogs]).recording.map RecordingState.recordingStartIndex = some 1)
    ∧ ((applyRegOps (fun _ p => p) PageEntry.init
        [RegOp.pushLog "boot",
         RegOp.startRec defaultRecordingOptions 0 "p.webm" true "",
         RegOp.clearLogs]).consoleLogs.length = 0) := by
  constructor <;> rfl

/-- Claim C1 as amended: in every state reachable without invoking the
console-clear endpoint while a recording is active,
`recordingStartIndex ≤ len(consoleLogs)`; and at any such state `stop()`
(with `captureConsoleLogs`) returns exactly
`consoleLogs.drop recordingStartIndex`, the contiguous suffix starting
at that index (the logs are that slice preceded by the first
`recordingStartIndex` entries, and its length is the remainder). -/
theorem recording_console_slice_inv (encoder : List ByteSeq → String → String)
    (ops : List RegOp)
    (hops : noClearWhileRecording encoder PageEntry.init ops = true) :
    pageInv (applyRegOps encoder PageEntry.init ops)
    ∧ (∀ r now, (applyRegOps encoder PageEntry.init ops).recording = some r →
        r.options.captureConsoleLogs = true →
        ((applyRegOps encoder PageEntry.init ops).stopRecording now encoder).1.consoleLogs =
            some ((applyRegOps encoder PageEntry.init ops).consoleLogs.drop
              r.recordingStartIndex)
          ∧ (applyRegOps encoder PageEntry.init ops).consoleLogs =
              (applyRegOps encoder PageEntry.init ops).consoleLogs.take
                  r.recordingStartIndex ++
                (applyRegOps encoder PageEntry.init ops).consoleLogs.drop
                  r.recordingStartIndex
          ∧ ((applyRegOps encoder PageEntry.init ops).consoleLogs.drop
                r.recordingStartIndex).length =
              (applyRegOps encoder PageEntry.init ops).consoleLogs.length -
                r.recordingStartIndex) := by
  have hinit : pageInv PageEntry.init := by
    intro r hr
    simp [PageEntry.init] at hr
  have hinv := applyRegOps_inv encoder ops PageEntry.init hinit hops
  refine ⟨hinv, ?_⟩
  intro r now hrec hcap
  obtain ⟨hact, _⟩ := hinv r hrec
  refine ⟨?_, (List.take_append_drop _ _).symm, by simp⟩
  simp only [PageEntry.stopRecording, hrec]
  simp [hact, hcap]

/-- Witness for C1 (amended): one log before start, one after; stop
returns exactly the post-start suffix. -/
theorem recording_console_slice_inv_witness :
    ((applyRegOps (fun _ p => p) PageEntry.init
        [RegOp.pushLog "a",
         RegOp.startRec defaultRecordingOptions 0 "p.webm" true "",
         RegOp.pushLog "b"]).stopRecording 9 (fun _ p => p)).1.consoleLogs = some ["b"] := by
  have h := recording_console_slice_inv (fun _ p => p)
      [RegOp.pushLog "a", RegOp.startRec defaultRecordingOptions 0 "p.webm" true "",
       RegOp.pushLog "b"] (by decide)
  have h2 := h.2
      { isRecording := true, startedAt := 0, frameCount := 0, frameBuffer := []
        options := defaultRecordingOptions, outputPath := "p.webm", recordingStartIndex := 1 }
      9 rfl rfl
  simpa using h2.1

/-- Claim C9: recording lifecycle conflicts are rejected with 409 and
leave the page's state unchanged — `start` on an actively recording page
answers "Recording already in progress", and `stop` with no active
recording answers "No recording in progress". -/
theorem recording_conflict_rejected (e : PageEntry) (opts : RecordingOptions) (now : Nat)
    (path : String) (cdpOk : Bool) (errMsg : String) (now2 : Nat)
    (encoder : List ByteSeq → String → String) :
    (e.recActive = true →
      e.startRecording opts now path cdpOk errMsg =
        ({ status := 409, success := false, error := some "Recording already in progress" }, e))
    ∧ (e.recActive = false →
      e.stopRecording now2 encoder =
        ({ status := 409, success := false, videoPath := none, durationMs := none
           frameCount := none, consoleLogs := none, keyFramePaths := none
           summaryPath := none, error := some "No recording in progress" }, e)) := by
  constructor
  · intro h
    simp [PageEntry.startRecording, h]
  · intro h
    unfold PageEntry.stopRecording
    cases hrec : e.recording with
    | none => rfl
    | some r =>
      have hia : r.isRecording = false := by
        simpa [PageEntry.recActive, hrec] using h
      simp [hia]

/-- Witness for C9: a page with an active recording rejects `start`, and
a fresh page rejects `stop`, both with 409 and unchanged state. -/
theorem recording_conflict_rejected_witness :
    (PageEntry.startRecording
        { consoleLogs := []
          recording := some (
            { isRecording := true, startedAt := 0, frameCount := 0, frameBuffer := []
              options := defaultRecordingOptions, outputPath := "p.webm"
              recordingStartIndex := 0 }) }
        defaultRecordingOptions 1 "q.webm" true "" =
      ({ status := 409, success := false, error := some "Recording already in progress" },
       { consoleLogs := []
         recording := some (
            { isRecording := true, startedAt := 0, frameCount := 0, frameBuffer := []
              options := defaultRecordingOptions, outputPath := "p.webm"
              recordingStartIndex := 0 }) }))
    ∧ (PageEntry.stopRecording PageEntry.init 5 (fun _ p => p) =
      ({ status := 409, success := false, videoPath := none, durationMs := none
         frameCount := none, consoleLogs := none, keyFramePaths := none
         summaryPath := none, error := some "No recording in progress" }, PageEntry.init)) :=
  ⟨(recording_conflict_rejected _ defaultRecordingOptions 1 "q.webm" true "" 0
      (fun _ p => p)).1 rfl,
   (recording_conflict_rejected PageEntry.init defaultRecordingOptions 0 "" true "" 5
      (fun _ p => p)).2 rfl⟩

/-- Claim C6: the executor never propagates an exception — a thrown
error becomes `{success:false, error:<message>}`; an action of unknown
kind returns `{success:false, error:"Unknown action: <kind>"}`; and the
terminal kinds `done` and `fail` return `{success:true}` performing no
page operation. -/
theorem executor_wraps_errors (env : ExecEnv) (action : AgentAction) :
    (action.name ∉ knownActionNames →
      ActionExecutor.execute env action =
        ({ success := false, error := some ("Unknown action: " ++ action.name) }, []))
    ∧ ((action.name = "done" ∨ action.name = "fail") →
      ActionExecutor.execute env action = ({ success := true, error := none }, []))
    ∧ (∀ m, (executeDispatch env action).2 = .error m →
      (ActionExecutor.execute env action).1 = { success := false, error := some m }) := by
  refine ⟨?_, ?_, ?_⟩
  · intro h
    simp only [knownActionNames, List.mem_cons, List.mem_singleton] at h
    push_neg at h
    obtain ⟨h1, h2, h3, h4, h5, h6, h7, h8, h9, h10⟩ := h
    simp [ActionExecutor.execute, executeDispatch, h1, h2, h3, h4, h5, h6, h7, h8, h9,
      by simpa using h10]
  · rintro (h | h) <;>
      simp [ActionExecutor.execute, executeDispatch, h]
  · intro m hm
    simp only [ActionExecutor.execute, hm]

/-- Witness for C6: a concrete unknown action kind is rejected with the
"Unknown action" message, and `done` is a successful no-op. -/
theorem executor_wraps_errors_witness :
    ActionExecutor.execute
        { resolveRef := fun _ => .ok none, runOp := fun _ => .ok () }
        { name := "frobnicate", input := emptyInput } =
      ({ success := false, error := some "Unknown action: frobnicate" }, [])
    ∧ ActionExecutor.execute
        { resolveRef := fun _ => .ok none, runOp := fun _ => .ok () }
        { name := "done", input := emptyInput } =
      ({ success := true, error := none }, []) :=
  ⟨(executor_wraps_errors _ _).1 (by decide),
   (executor_wraps_errors _ _).2.1 (Or.inl rfl)⟩

/-- Claim C7 counterexample: a history consisting of one `type` entry
with no `text` field, at the default `maxDetailed 10`.  The claim, with
`N = 1 ≤ maxDetailed`, predicts exactly one rendered line; the code
instead reads `text.length` of `undefined` in `formatAction` and the
`TypeError` propagates out of `compressHistory`, so no string is
returned at all. -/
theorem compressHistory_type_throws_counterexample :
    compressHistory [typeNoTextEntry] 10 =
      .error "TypeError: Cannot read properties of undefined (reading 'length')" := by
  rfl

set_option maxHeartbeats 1000000 in
lemma formatAction_ok_of_text (a : AgentAction)
    (h : a.name = "type" → a.input.text ≠ none) :
    ∃ s, formatAction a = .ok s := by
  cases hfa : formatAction a with
  | ok s => exact ⟨s, rfl⟩
  | error m =>
    exfalso
    unfold formatAction at hfa
    split_ifs at hfa with h1 h2 <;> try exact Except.noConfusion hfa
    cases htxt : a.input.text with
    | none => exact h h2 htxt
    | some t =>
      rw [htxt] at hfa
      exact Except.noConfusion hfa

lemma renderEntry_ok_of_text (e : CycleEntry)
    (h : e.action.name = "type" → e.action.input.text ≠ none) :
    ∃ s, renderEntry e = .ok s := by
  obtain ⟨s, hs⟩ := formatAction_ok_of_text e.action h
  unfold renderEntry
  rw [hs]
  exact ⟨_, rfl⟩

lemma renderLines_ok_of_text :
    ∀ (l : List CycleEntry),
      (∀ e ∈ l, e.action.name = "type" → e.action.input.text ≠ none) →
      ∃ lines, renderLines l = .ok lines ∧ lines.length = l.length := by
  intro l
  induction l with
  | nil => intro _; exact ⟨[], rfl, rfl⟩
  | cons e rest ih =>
    intro h
    obtain ⟨s, hs⟩ := renderEntry_ok_of_text e (h e (by simp))
    obtain ⟨lines, hl, hlen⟩ := ih (fun x hx => h x (by simp [hx]))
    refine ⟨s :: lines, ?_, by simp [hlen]⟩
    unfold renderLines
    rw [hs, hl]

/-- Claim C7 as amended: for histories in which every entry of the
rendered `slice(-maxDetailed)` with action kind `type` carries a `text`
field (otherwise `compressHistory` throws — see the counterexample),
the compressor returns the empty string on empty input; on
`N ≤ maxDetailed` entries exactly one line per entry in order; and on
`N > maxDetailed` entries exactly `1 + maxDetailed` lines — the summary
line `[N−maxDetailed earlier actions: K succeeded, (N−maxDetailed)−K
failed]` followed by one line per entry of the last `maxDetailed`
entries. -/
theorem compressHistory_line_structure (entries : List CycleEntry) (maxDetailed : Nat)
    (hmd : 1 ≤ maxDetailed)
    (htext : ∀ e ∈ jsSliceLast entries maxDetailed,
      e.action.name = "type" → e.action.input.text ≠ none) :
    (entries = [] → compressHistory entries maxDetailed = .ok "")
    ∧ (entries ≠ [] → entries.length ≤ maxDetailed →
        ∃ lines, renderLines entries = .ok lines ∧ lines.length = entries.length ∧
          compressHistory entries maxDetailed = .ok (String.intercalate "\n" lines))
    ∧ (maxDetailed < entries.length →
        ∃ lines,
          renderLines (entries.drop (entries.length - maxDetailed)) = .ok lines ∧
          lines.length = maxDetailed ∧
          compressHistory entries maxDetailed =
            .ok (String.intercalate "\n"
              (summaryLine (entries.take (entries.length - maxDetailed)) :: lines)) ∧
          (summaryLine (entries.take (entries.length - maxDetailed)) :: lines).length =
            1 + maxDetailed ∧
          summaryLine (entries.take (entries.length - maxDetailed)) =
            "[" ++ toString (entries.length - maxDetailed) ++ " earlier actions: " ++
            toString ((entries.take (entries.length - maxDetailed)).countP
              (fun e => e.result.success)) ++ " succeeded, " ++
            toString ((entries.length - maxDetailed) -
              (entries.take (entries.length - maxDetailed)).countP
                (fun e => e.result.success)) ++ " failed]") := by
  have hslice_le : entries.length ≤ maxDetailed →
      jsSliceLast entries maxDetailed = entries := by
    intro hlen
    unfold jsSliceLast
    rw [if_neg (by omega)]
    have hz : entries.length - maxDetailed = 0 := by omega
    rw [hz, List.drop_zero]
  have hslice_gt : maxDetailed < entries.length →
      jsSliceLast entries maxDetailed = entries.drop (entries.length - maxDetailed) := by
    intro hlt
    unfold jsSliceLast
    rw [if_neg (by omega)]
  refine ⟨?_, ?_, ?_⟩
  · intro h
    simp [compressHistory, h]
  · intro hne hlen
    rw [hslice_le hlen] at htext
    obtain ⟨lines, hl, hlen2⟩ := renderLines_ok_of_text entries htext
    refine ⟨lines, hl, hlen2, ?_⟩
    have hemp : entries.isEmpty = false := by
      simpa [List.isEmpty_iff] using hne
    unfold compressHistory
    rw [if_neg (by simp [hemp])]
    dsimp only
    rw [if_neg (by omega), hslice_le hlen, hl]
    simp
  · intro hlt
    have hne : entries ≠ [] := by
      intro h
      rw [h] at hlt
      simp at hlt
    have hemp : entries.isEmpty = false := by
      simpa [List.isEmpty_iff] using hne
    rw [hslice_gt hlt] at htext
    obtain ⟨lines, hl, hlen2⟩ := renderLines_ok_of_text _ htext
    have hdl : (entries.drop (entries.length - maxDetailed)).length = maxDetailed := by
      simp only [List.length_drop]
      omega
    refine ⟨lines, hl, by omega, ?_, ?_, ?_⟩
    · unfold compressHistory
      rw [if_neg (by simp [hemp])]
      dsimp only
      rw [if_pos hlt, hslice_gt hlt, hl]
      rfl
    · simp only [List.length_cons]
      omega
    · unfold summaryLine
      have htk : (entries.take (entries.length - maxDetailed)).length =
          entries.length - maxDetailed := by
        simp only [List.length_take]
        omega
      rw [htk]

/-- Witness for C7 (amended) at three concrete entries with
`maxDetailed 2`: the output is the summary line for the one earlier
entry followed by the two most recent lines. -/
theorem compressHistory_line_structure_witness :
    compressHistory historyDemoEntries 2 =
      .ok "[1 earlier actions: 1 succeeded, 0 failed]\n2. wait(1000ms) → FAILED: boom\n3. wait(1000ms) → OK" := by
  obtain ⟨lines, hl, hlen, hch, hcnt, hsum⟩ :=
    (compressHistory_line_structure historyDemoEntries 2 (by decide) (by decide)).2.2
      (by decide)
  have hr : renderLines (historyDemoEntries.drop (historyDemoEntries.length - 2)) =
      .ok ["2. wait(1000ms) → FAILED: boom", "3. wait(1000ms) → OK"] := by rfl
  rw [hr] at hl
  injection hl with hl2
  subst hl2
  rw [hch]
  rfl

lemma validateAction_fail_allowed (safety : Option SafetyConfig)
    (rt : String → String → Bool) (input : ActionInput) (url : String) :
    (validateAction safety rt { name := "fail", input := input } url).allowed = true := by
  cases safety with
  | none => rfl
  | some s => simp [validateAction, allowedInReadOnly]

lemma runFrom_budget_stop (cfg : LoopConfig) (rt : String → String → Bool)
    (env : Nat → CycleEvents) (fuel : Nat) (s : LoopSt)
    (hb : (s.budget.canProceed (env s.cycle).now).allowed = false) :
    runFrom cfg rt env (fuel + 1) s =
      (buildResult false ("Budget exceeded: " ++
          jsUndef (s.budget.canProceed (env s.cycle).now).reason) s.history none s.budget
          (env s.cycle).now, s.audit) := by
  rw [runFrom]
  rw [if_pos hb]

lemma runFrom_blocked_step (cfg : LoopConfig) (rt : String → String → Bool)
    (env : Nat → CycleEvents) (fuel : Nat) (s : LoopSt)
    (f t : ByteSeq) (a : AgentAction) (r : Option String) (u : TokenUsage)
    (hb : (s.budget.canProceed (env s.cycle).now).allowed = true)
    (hshot : (env s.cycle).screenshot = .ok f)
    (hthumb : (env s.cycle).thumb = .ok t)
    (hvlm : (env s.cycle).vlm = .ok (a, r, u))
    (hblock : (validateAction cfg.safety rt a (env s.cycle).url).allowed = false) :
    runFrom cfg rt env (fuel + 1) s =
      runFrom cfg rt env fuel
        ((recordCycle { s with sampler := (s.sampler.hasChanged t).2 }
            { cycle := s.cycle, timestamp := (env s.cycle).tEnd
              pageUrl := (env s.cycle).url, action := a, reasoning := r
              result := { success := false, error := some ("Blocked: " ++
                jsUndef (validateAction cfg.safety rt a (env s.cycle).url).reason) }
              tokens := some u, durationMs := (env s.cycle).tEnd - (env s.cycle).now }
            u).addConsecutiveError) := by
  rw [runFrom]
  rw [if_neg (by simp [hb])]
  simp only [hshot, hthumb, hvlm]
  rw [if_pos hblock]

/-- Claim C10: the consecutive-error limit is never checked on a
safety-blocked cycle, so a run whose every cycle is safety-blocked ends
only by budget denial or by cycle exhaustion — never with a
"Stopped after N consecutive errors" result. -/
theorem loop_blocked_cycles_end_by_budget_or_exhaustion
    (cfg : LoopConfig) (rt : String → String → Bool) (env : Nat → CycleEvents)
    (H : ∀ i, ∃ f t a r u, (env i).screenshot = .ok f ∧ (env i).thumb = .ok t ∧
        (env i).vlm = .ok (a, r, u) ∧
        (validateAction cfg.safety rt a (env i).url).allowed = false) :
    ∀ (fuel : Nat) (s : LoopSt),
      (runFrom cfg rt env fuel s).1.success = false
      ∧ ((∃ rsn, (runFrom cfg rt env fuel s).1.summary = "Budget exceeded: " ++ rsn)
        ∨ (runFrom cfg rt env fuel s).1.summary =
            "Max cycles reached (" ++ toString cfg.maxCycles ++ ")") := by
  intro fuel
  induction fuel with
  | zero =>
    intro s
    exact ⟨rfl, Or.inr rfl⟩
  | succ fuel ih =>
    intro s
    obtain ⟨f, t, a, r, u, hshot, hthumb, hvlm, hblock⟩ := H s.cycle
    by_cases hb : (s.budget.canProceed (env s.cycle).now).allowed = false
    · rw [runFrom_budget_stop cfg rt env fuel s hb]
      exact ⟨rfl, Or.inl ⟨jsUndef (s.budget.canProceed (env s.cycle).now).reason, rfl⟩⟩
    · have hb' : (s.budget.canProceed (env s.cycle).now).allowed = true := by
        cases h : (s.budget.canProceed (env s.cycle).now).allowed
        · exact absurd h hb
        · rfl
      rw [runFrom_blocked_step cfg rt env fuel s f t a r u hb' hshot hthumb hvlm hblock]
      exact ih _

/-- Witness for C10: with read-only safety blocking every `click` action
and a generous budget, a two-cycle run ends with "Max cycles reached". -/
theorem loop_blocked_cycles_witness :
    ((∃ rsn, (runFrom
        { maxCycles := 2, maxConsecutiveErrors := 5
          safety := some { readOnlyMode := true, blockedURLPatterns := [] }
          limits := defaultBudgetLimits }
        (fun _ _ => false)
        (fun _ => { now := 0, tEnd := 1, url := "u", screenshot := .ok [0], thumb := .ok [0]
                    vlm := .ok ({ name := "click", input := emptyInput }, none,
                      { input := 1, output := 1 })
                    execEnv := { resolveRef := fun _ => .ok none, runOp := fun _ => .ok () } })
        2
        { cycle := 0, history := [], audit := [], consecutiveErrors := 0
          budget := BudgetController.init defaultBudgetLimits 0
          sampler := FrameSampler.init none none }).1.summary = "Budget exceeded: " ++ rsn)
      ∨ (runFrom
        { maxCycles := 2, maxConsecutiveErrors := 5
          safety := some { readOnlyMode := true, blockedURLPatterns := [] }
          limits := defaultBudgetLimits }
        (fun _ _ => false)
        (fun _ => { now := 0, tEnd := 1, url := "u", screenshot := .ok [0], thumb := .ok [0]
                    vlm := .ok ({ name := "click", input := emptyInput }, none,
                      { input := 1, output := 1 })
                    execEnv := { resolveRef := fun _ => .ok none, runOp := fun _ => .ok () } })
        2
        { cycle := 0, history := [], audit := [], consecutiveErrors := 0
          budget := BudgetController.init defaultBudgetLimits 0
          sampler := FrameSampler.init none none }).1.summary = "Max cycles reached (2)") :=
  (loop_blocked_cycles_end_by_budget_or_exhaustion _ _ _
    (fun _ => ⟨[0], [0], { name := "click", input := emptyInput }, none,
      { input := 1, output := 1 }, rfl, rfl, rfl, by decide⟩) 2 _).2

/-- Claim C8: when the loop receives a `fail` action it appends a cycle
entry whose result is `{success:true}` to the audit log, then terminates
the run with overall `success=false` and summary equal to
`action.input.reason` — the per-cycle and run-level flags disagree by
design. -/
theorem loop_fail_action_audit (cfg : LoopConfig) (rt : String → String → Bool)
    (env : Nat → CycleEvents) (fuel : Nat) (s : LoopSt)
    (f t : ByteSeq) (inp : ActionInput) (r : Option String) (u : TokenUsage)
    (reasonStr : String)
    (hb : (s.budget.canProceed (env s.cycle).now).allowed = true)
    (hshot : (env s.cycle).screenshot = .ok f)
    (hthumb : (env s.cycle).thumb = .ok t)
    (hvlm : (env s.cycle).vlm = .ok ({ name := "fail", input := inp }, r, u))
    (hreason : inp.reason = some reasonStr) :
    (runFrom cfg rt env (fuel + 1) s).1.success = false
    ∧ (runFrom cfg rt env (fuel + 1) s).1.summary = reasonStr
    ∧ (runFrom cfg rt env (fuel + 1) s).2 =
        s.audit ++ [failCycleEntry s (env s.cycle) inp r u]
    ∧ (failCycleEntry s (env s.cycle) inp r u).result.success = true := by
  have hred : runFrom cfg rt env (fuel + 1) s =
      (buildResult false (jsUndef inp.reason)
        (recordCycle { s with sampler := (s.sampler.hasChanged t).2 }
          (failCycleEntry s (env s.cycle) inp r u) u).history none
        (recordCycle { s with sampler := (s.sampler.hasChanged t).2 }
          (failCycleEntry s (env s.cycle) inp r u) u).budget (env s.cycle).tEnd,
       (recordCycle { s with sampler := (s.sampler.hasChanged t).2 }
          (failCycleEntry s (env s.cycle) inp r u) u).audit) := by
    rw [runFrom]
    rw [if_neg (by simp [hb])]
    simp only [hshot, hthumb, hvlm]
    rw [if_neg (by simp [validateAction_fail_allowed cfg.safety rt inp (env s.cycle).url])]
    rw [if_neg (by decide), if_pos trivial]
    rfl
  rw [hred]
  refine ⟨rfl, ?_, ?_, rfl⟩
  · simp [buildResult, jsUndef, hreason]
  · simp [recordCycle]

/-- Witness for C8: a one-cycle run whose model answer is
`fail(reason := "cannot log in")` ends unsuccessfully with that summary. -/
theorem loop_fail_action_audit_witness :
    (runFrom failDemoConfig (fun _ _ => false) (fun _ => failDemoEvents) 3
        failDemoState).1.success = false
    ∧ (runFrom failDemoConfig (fun _ _ => false) (fun _ => failDemoEvents) 3
        failDemoState).1.summary = "cannot log in" := by
  have hcp : failDemoState.budget.canProceed 0 = { allowed := true, reason := none } := by
    apply canProceed_allowed_case <;>
      norm_num [failDemoState, BudgetController.init, defaultBudgetLimits,
        BudgetController.estimateCost]
  have hb : (failDemoState.budget.canProceed
      ((fun _ : Nat => failDemoEvents) failDemoState.cycle).now).allowed = true := by
    rw [show ((fun _ : Nat => failDemoEvents) failDemoState.cycle).now = 0 from rfl, hcp]
  have h := loop_fail_action_audit failDemoConfig (fun _ _ => false) (fun _ => failDemoEvents)
    2 failDemoState [0] [0] failDemoInput none { input := 1, output := 1 } "cannot log in"
    hb rfl rfl rfl rfl
  exact ⟨h.1, h.2.1⟩

end DevBrowserStudio
